import Mathlib

/-!
Verification of the NHWC drawing-game core: the stroke-history (undo/redo)
state machine of `src/hooks/useAdvancedCanvas.ts`, the layered renderer and
frame-gated scheduler of `src/services/advancedCanvasRenderer.ts`, and the
device-capability classifier of `PerformanceOptimizer.getDevicePerformanceLevel`.
Each definition is a shallow embedding of the corresponding TypeScript
function; numbers are modelled as rationals, JS `Map`s as association lists
kept in insertion order, and the closures held in the renderer's queues as a
first-order `RenderOp` datatype (the closures created by the source only
paint pixels and flip bookkeeping fields; pixel contents are outside the
model).
-/

set_option autoImplicit false

namespace NHWC

/-! ## Data model (src/types/canvas.ts) -/

/-- `Point {x, y}` in surface pixel space. -/
structure Point where
  x : ℚ
  y : ℚ
deriving DecidableEq

/-- `DrawingStroke {points, color, width, timestamp, id}`. -/
structure DrawingStroke where
  id : String
  points : List Point
  color : String
  width : ℚ
  timestamp : ℕ
deriving DecidableEq

/-- The `type` field of `BrushSettings`: `'pen' | 'brush' | 'marker'`. -/
inductive BrushType where
  | pen
  | brush
  | marker
deriving DecidableEq

/-- `BrushSettings {size, color, opacity, type}`. -/
structure BrushSettings where
  size : ℚ
  color : String
  opacity : ℚ
  type : BrushType
deriving DecidableEq

/-- `Partial<BrushSettings>` as dispatched by `setBrush`: each field optional,
spread-merged over the previous settings. -/
structure BrushSettingsPatch where
  size : Option ℚ
  color : Option String
  opacity : Option ℚ
  type : Option BrushType
deriving DecidableEq

/-- `{ ...state.brushSettings, ...payload }`. -/
def applyBrushPatch (b : BrushSettings) (p : BrushSettingsPatch) : BrushSettings :=
  { size := p.size.getD b.size
    color := p.color.getD b.color
    opacity := p.opacity.getD b.opacity
    type := p.type.getD b.type }

/-- Device performance tier: `'low' | 'medium' | 'high'`. -/
inductive PerfLevel where
  | low
  | medium
  | high
deriving DecidableEq

/-- The `renderingStats` record held in the hook state (three fields). -/
structure HookRenderingStats where
  framesRendered : ℕ
  averageFrameTime : ℚ
  droppedFrames : ℕ
deriving DecidableEq

/-! ## Canvas hook state machine (src/hooks/useAdvancedCanvas.ts) -/

/-- `AdvancedCanvasState`: `CanvasState` plus the performance fields added by
the hook. -/
structure AdvancedCanvasState where
  strokes : List DrawingStroke
  undoStack : List (List DrawingStroke)
  redoStack : List DrawingStroke
  isDrawing : Bool
  currentStroke : Option DrawingStroke
  brushSettings : BrushSettings
  isOptimized : Bool
  performanceLevel : PerfLevel
  renderingStats : HookRenderingStats
deriving DecidableEq

/-- `initialState` (useAdvancedCanvas.ts lines 22-41); brush defaults come
from `BRUSH_CONFIG` in src/lib/constants.ts. -/
def initialState : AdvancedCanvasState :=
  { strokes := []
    undoStack := []
    redoStack := []
    isDrawing := false
    currentStroke := none
    brushSettings :=
      { size := 4, color := "#1E293B", opacity := 1, type := BrushType.pen }
    isOptimized := true
    performanceLevel := PerfLevel.medium
    renderingStats := { framesRendered := 0, averageFrameTime := 0, droppedFrames := 0 } }

/-- `AdvancedCanvasAction`: the actions handled by `advancedCanvasReducer`.
`START_DRAWING` and `FINISH_DRAWING` appear in the TS action union but fall
through to the reducer's default case. -/
inductive AdvancedCanvasAction where
  | DRAW (payload : DrawingStroke)
  | UNDO
  | REDO
  | CLEAR
  | SET_BRUSH (payload : BrushSettingsPatch)
  | UPDATE_PERFORMANCE (level : PerfLevel)
  | UPDATE_STATS (payload : HookRenderingStats)
  | START_DRAWING
  | FINISH_DRAWING
deriving DecidableEq

/-- `advancedCanvasReducer` (useAdvancedCanvas.ts lines 48-106).  JS array
push appends at the end, so the top of each stack is the last list element;
`strokes[strokes.length - 1]` behind the emptiness guard is `getLast?`. -/
def advancedCanvasReducer (state : AdvancedCanvasState) (action : AdvancedCanvasAction) :
    AdvancedCanvasState :=
  match action with
  | .DRAW payload =>
      { state with
          strokes := state.strokes ++ [payload]
          redoStack := [] }
  | .UNDO =>
      match state.strokes.getLast? with
      | none => state
      | some lastStroke =>
          { state with
              strokes := state.strokes.dropLast
              undoStack := state.undoStack ++ [[lastStroke]] }
  | .REDO =>
      match state.undoStack.getLast? with
      | none => state
      | some strokesToRedo =>
          { state with
              strokes := state.strokes ++ strokesToRedo
              undoStack := state.undoStack.dropLast }
  | .CLEAR =>
      { state with
          strokes := []
          undoStack := state.undoStack ++ [state.strokes]
          redoStack := [] }
  | .SET_BRUSH payload =>
      { state with brushSettings := applyBrushPatch state.brushSettings payload }
  | .UPDATE_PERFORMANCE level =>
      { state with performanceLevel := level }
  | .UPDATE_STATS payload =>
      { state with renderingStats := payload }
  | _ => state

/-- The hook's `undo` callback (lines 294-305): guarded on a non-empty
strokes list before dispatching `UNDO` (the renderer calls it also makes
have no effect on the reducer state). -/
def hookUndo (s : AdvancedCanvasState) : AdvancedCanvasState :=
  if s.strokes.length = 0 then s else advancedCanvasReducer s AdvancedCanvasAction.UNDO

/-- The hook's `redo` callback (lines 308-316): guarded on a non-empty
`undoStack` before dispatching `REDO`. -/
def hookRedo (s : AdvancedCanvasState) : AdvancedCanvasState :=
  if s.undoStack.length = 0 then s else advancedCanvasReducer s AdvancedCanvasAction.REDO

/-- The hook's `clear` callback (lines 319-324): dispatches `CLEAR`
unconditionally. -/
def hookClear (s : AdvancedCanvasState) : AdvancedCanvasState :=
  advancedCanvasReducer s AdvancedCanvasAction.CLEAR

/-- Run a sequence of actions from `initialState`. -/
def applyActions (ops : List AdvancedCanvasAction) : AdvancedCanvasState :=
  ops.foldl advancedCanvasReducer initialState

/-- The stroke sealed by an action, if any: only `DRAW` seals a stroke. -/
def drawPayload : AdvancedCanvasAction → Option DrawingStroke
  | .DRAW p => some p
  | _ => none

/-- All strokes sealed during a session, in creation order. -/
def sealedStrokes (ops : List AdvancedCanvasAction) : List DrawingStroke :=
  ops.filterMap drawPayload

/-- The four stroke-history operations named by the spec invariant. -/
def isHistoryAction : AdvancedCanvasAction → Bool
  | .DRAW _ => true
  | .UNDO => true
  | .REDO => true
  | .CLEAR => true
  | _ => false

/-- The five user-facing operations (history operations plus `setBrush`). -/
def isUserAction : AdvancedCanvasAction → Bool
  | .DRAW _ => true
  | .UNDO => true
  | .REDO => true
  | .CLEAR => true
  | .SET_BRUSH _ => true
  | _ => false

/-! ## Renderer (src/services/advancedCanvasRenderer.ts)

The renderer's mutable fields become a `RendererState` record.  A JS `Map`
becomes an association list in insertion order; a `Path2D` becomes the list
of path-building calls made on it; `DOMRect` becomes a record of rationals.
The closures pushed onto `renderQueue` / `batchedOperations` are represented
by the first-order `RenderOp` type, and executing an operation is the state
transformation its closure performs (pixel output of `ctx.stroke`,
`clearRect` and `drawImage` is outside the model). -/

/-- One layer: `CanvasLayer {canvas, ctx, isDirty, zIndex}` (the surface
handles carry no modelled state). -/
structure CanvasLayer where
  isDirty : Bool
  zIndex : ℤ
deriving DecidableEq

/-- The renderer's private `renderStats` record (four fields). -/
structure RendererStats where
  framesRendered : ℕ
  averageFrameTime : ℚ
  droppedFrames : ℕ
  totalRenderTime : ℚ
deriving DecidableEq

/-- A single path-building call on a `Path2D`. -/
inductive PathSeg where
  | moveTo (x y : ℚ)
  | quadraticCurveTo (cpx cpy x y : ℚ)
  | lineTo (x y : ℚ)
deriving DecidableEq

/-- A compiled `Path2D`: the sequence of calls that built it. -/
abbrev Path2D := List PathSeg

/-- `DOMRect` as produced by `getStrokeBounds`. -/
structure DOMRectQ where
  x : ℚ
  y : ℚ
  width : ℚ
  height : ℚ
deriving DecidableEq

/-- The stroke cache key.  The source formats the four components into the
string `id_pointCount_color_width` (getStrokeCacheKey, line 339-341); the
key is modelled as the tuple of those components. -/
structure StrokeCacheKey where
  id : String
  pointCount : ℕ
  color : String
  width : ℚ
deriving DecidableEq

/-- `getStrokeCacheKey` (lines 339-341). -/
def getStrokeCacheKey (stroke : DrawingStroke) : StrokeCacheKey :=
  { id := stroke.id
    pointCount := stroke.points.length
    color := stroke.color
    width := stroke.width }

/-- The closures the renderer enqueues: one constructor per enqueuing API. -/
inductive RenderOp where
  | drawStrokeOp (stroke : DrawingStroke) (layerName : String)
  | drawStrokesOp (strokes : List DrawingStroke) (layerName : String)
  | clearLayerOp (layerName : String)
  | resizeOp (width height : ℚ)
deriving DecidableEq

/-- The renderer's mutable state. -/
structure RendererState where
  layers : List (String × CanvasLayer)
  renderQueue : List RenderOp
  batchedOperations : List RenderOp
  lastFrameTime : ℚ
  targetFrameRate : ℕ
  renderStats : RendererStats
  strokeCache : List (StrokeCacheKey × Path2D)
  dirtyRegions : List DOMRectQ
  isRendering : Bool
  offscreenEnabled : Bool
deriving DecidableEq

/-- `RenderingOptions` (all fields optional in TS). -/
structure RenderingOptions where
  enableOffscreenRendering : Option Bool
  enableSmoothing : Option Bool
  enableBatching : Option Bool
  maxBatchSize : Option ℕ
  frameRate : Option ℕ
deriving DecidableEq

/-- `Map.get`: first binding with the given layer name. -/
def lookupLayer : List (String × CanvasLayer) → String → Option CanvasLayer
  | [], _ => none
  | (k, v) :: rest, name => if k = name then some v else lookupLayer rest name

/-- `Map.set` on an existing key: replace the binding in place. -/
def setLayer : List (String × CanvasLayer) → String → CanvasLayer →
    List (String × CanvasLayer)
  | [], _, _ => []
  | (k, v) :: rest, name, l =>
      if k = name then (k, l) :: rest else (k, v) :: setLayer rest name l

/-- `strokeCache.get`. -/
def lookupCache : List (StrokeCacheKey × Path2D) → StrokeCacheKey → Option Path2D
  | [], _ => none
  | (k, v) :: rest, key => if k = key then some v else lookupCache rest key

/-- `strokeCache.set` on a missing key: append the new binding. -/
def insertCache (cache : List (StrokeCacheKey × Path2D)) (key : StrokeCacheKey)
    (path : Path2D) : List (StrokeCacheKey × Path2D) :=
  cache ++ [(key, path)]

/-- The smoothing loop of `createStrokePath` (lines 318-325): for each
adjacent pair of points after the first, a quadratic curve through the
current point to the midpoint of it and its successor. -/
def midpointSegs : List Point → List PathSeg
  | current :: next :: tail =>
      PathSeg.quadraticCurveTo current.x current.y
        ((current.x + next.x) / 2) ((current.y + next.y) / 2) ::
        midpointSegs (next :: tail)
  | _ => []

/-- `createStrokePath` (lines 309-334): strokes with fewer than 2 points
compile to an empty path; otherwise move to the first point, smooth through
the interior points, and finish with a straight segment to the last point. -/
def createStrokePath (stroke : DrawingStroke) : Path2D :=
  if stroke.points.length < 2 then []
  else
    match stroke.points with
    | [] => []
    | p0 :: rest =>
        match rest.getLast? with
        | none => [PathSeg.moveTo p0.x p0.y]
        | some lastPoint =>
            PathSeg.moveTo p0.x p0.y ::
              (midpointSegs rest ++ [PathSeg.lineTo lastPoint.x lastPoint.y])

/-- `getStrokeBounds` (lines 346-371): axis-aligned bounding box of the
points, padded by half the stroke width; the empty stroke gives the zero
rectangle without padding. -/
def getStrokeBounds (stroke : DrawingStroke) : DOMRectQ :=
  match stroke.points with
  | [] => { x := 0, y := 0, width := 0, height := 0 }
  | p :: _ =>
      let minX := stroke.points.foldl (fun m q => min m q.x) p.x
      let minY := stroke.points.foldl (fun m q => min m q.y) p.y
      let maxX := stroke.points.foldl (fun m q => max m q.x) p.x
      let maxY := stroke.points.foldl (fun m q => max m q.y) p.y
      let padding := stroke.width / 2
      { x := minX - padding
        y := minY - padding
        width := maxX - minX + padding * 2
        height := maxY - minY + padding * 2 }

/-- `addDirtyRegion` (lines 376-383): push, then if more than 100 regions
are held keep only the last 50 (`slice(-50)`). -/
def addDirtyRegion (regions : List DOMRectQ) (rect : DOMRectQ) : List DOMRectQ :=
  let pushed := regions ++ [rect]
  if pushed.length > 100 then pushed.drop (pushed.length - 50) else pushed

/-- Execute one queued closure.  Each case is the body of the closure built
by the corresponding enqueuing method (drawStroke lines 272-301, drawStrokes
lines 389-413, clearLayer lines 422-428, resize lines 453-476). -/
def execRenderOp (s : RendererState) (op : RenderOp) : RendererState :=
  match op with
  | .drawStrokeOp stroke layerName =>
      match lookupLayer s.layers layerName with
      | none => s
      | some layer =>
          let cacheKey := getStrokeCacheKey stroke
          let cache' :=
            match lookupCache s.strokeCache cacheKey with
            | some _ => s.strokeCache
            | none => insertCache s.strokeCache cacheKey (createStrokePath stroke)
          { s with
              strokeCache := cache'
              layers := setLayer s.layers layerName { layer with isDirty := true }
              dirtyRegions := addDirtyRegion s.dirtyRegions (getStrokeBounds stroke) }
  | .drawStrokesOp _ layerName =>
      match lookupLayer s.layers layerName with
      | none => s
      | some layer =>
          { s with layers := setLayer s.layers layerName { layer with isDirty := true } }
  | .clearLayerOp layerName =>
      match lookupLayer s.layers layerName with
      | none => s
      | some layer =>
          { s with layers := setLayer s.layers layerName { layer with isDirty := true } }
  | .resizeOp _ _ =>
      { s with layers := s.layers.map (fun p => (p.1, { p.2 with isDirty := true })) }

/-- `drawStroke` (lines 271-304): enqueue onto `batchedOperations`; in the
source the layer name is an optional argument defaulting to `'drawing'`. -/
def drawStroke (s : RendererState) (stroke : DrawingStroke)
    (layerName : String) : RendererState :=
  { s with batchedOperations :=
      s.batchedOperations ++ [RenderOp.drawStrokeOp stroke layerName] }

/-- `drawStrokes` (lines 388-416): enqueue onto `batchedOperations`; the
layer name is likewise optional in the source, defaulting to `'drawing'`. -/
def drawStrokes (s : RendererState) (strokes : List DrawingStroke)
    (layerName : String) : RendererState :=
  { s with batchedOperations :=
      s.batchedOperations ++ [RenderOp.drawStrokesOp strokes layerName] }

/-- `clearLayer` (lines 421-431): enqueue onto `renderQueue`. -/
def clearLayer (s : RendererState) (layerName : String) : RendererState :=
  { s with renderQueue := s.renderQueue ++ [RenderOp.clearLayerOp layerName] }

/-- `resize` (lines 452-479): enqueue onto `renderQueue`. -/
def resize (s : RendererState) (width height : ℚ) : RendererState :=
  { s with renderQueue := s.renderQueue ++ [RenderOp.resizeOp width height] }

/-- `clear` (lines 436-447): enqueue a `clearLayer` for every layer, clear
the offscreen surface (pixels, unmodelled), then empty the stroke cache and
the dirty-region buffer. -/
def rendererClear (s : RendererState) : RendererState :=
  let s1 := s.layers.foldl (fun acc p => clearLayer acc p.1) s
  { s1 with strokeCache := [], dirtyRegions := [] }

/-- `composeLayers` (lines 247-266): the main surface is repainted from the
dirty layers in ascending z-index order (pixels, unmodelled) and each drawn
layer's dirty flag is reset. -/
def composeLayers (s : RendererState) : RendererState :=
  { s with layers :=
      s.layers.map (fun p => if p.2.isDirty then (p.1, { p.2 with isDirty := false }) else p) }

/-- `updateRenderStats` (lines 493-503). -/
def updateRenderStats (stats : RendererStats) (targetFrameRate : ℕ)
    (frameTime : ℚ) : RendererStats :=
  let framesRendered := stats.framesRendered + 1
  let totalRenderTime := stats.totalRenderTime + frameTime
  let targetFrameTime : ℚ := 1000 / (targetFrameRate : ℚ)
  { framesRendered := framesRendered
    totalRenderTime := totalRenderTime
    averageFrameTime := totalRenderTime / (framesRendered : ℚ)
    droppedFrames :=
      if frameTime > targetFrameTime * 1.5 then stats.droppedFrames + 1
      else stats.droppedFrames }

/-- `processBatchedOperations` (lines 232-242): copy the queue, empty the
field, then run every copied operation in order.  Also returns the executed
operations for stating ordering properties. -/
def processBatchedOperations (s : RendererState) : RendererState × List RenderOp :=
  let operations := s.batchedOperations
  (operations.foldl execRenderOp { s with batchedOperations := [] }, operations)

/-- The result of one scheduler invocation: the new state, the operations
executed in order, and whether `composeLayers` ran. -/
structure TickResult where
  state : RendererState
  executed : List RenderOp
  composited : Bool
deriving DecidableEq

/-- `processRenderQueue` (lines 200-227).  `frameDuration` stands for the
wall-clock span `performance.now()` measures around the body; it is an
input because physical time is outside the state. -/
def processRenderQueue (s : RendererState) (frameDuration : ℚ) : TickResult :=
  if s.renderQueue.length = 0 ∧ s.batchedOperations.length = 0 then
    { state := s, executed := [], composited := false }
  else
    let s0 := { s with isRendering := true }
    let batchedResult :=
      if 0 < s0.batchedOperations.length then processBatchedOperations s0 else (s0, [])
    let s1 := batchedResult.1
    let immediate := s1.renderQueue
    let s2 := immediate.foldl execRenderOp { s1 with renderQueue := [] }
    let s3 := composeLayers s2
    { state :=
        { s3 with
            renderStats := updateRenderStats s3.renderStats s3.targetFrameRate frameDuration
            isRendering := false }
      executed := batchedResult.2 ++ immediate
      composited := true }

/-- The per-frame callback `renderFrame` inside `startRenderLoop`
(lines 180-195): skip the frame when the interval has not elapsed, else
process the queues and record the frame time. -/
def renderFrame (s : RendererState) (currentTime frameDuration : ℚ) : TickResult :=
  let frameInterval : ℚ := 1000 / (s.targetFrameRate : ℚ)
  let deltaTime := currentTime - s.lastFrameTime
  if deltaTime ≥ frameInterval then
    let r := processRenderQueue s frameDuration
    { r with state := { r.state with lastFrameTime := currentTime } }
  else
    { state := s, executed := [], composited := false }

/-- The constructor (lines 51-82): three layers created in order with
z-indices 0, 1, 2; `options.frameRate || 60`; offscreen rendering enabled
unless the option is exactly `false`. -/
def initialRendererState (options : RenderingOptions) : RendererState :=
  { layers :=
      [("background", { isDirty := false, zIndex := 0 }),
       ("drawing", { isDirty := false, zIndex := 1 }),
       ("ui", { isDirty := false, zIndex := 2 })]
    renderQueue := []
    batchedOperations := []
    lastFrameTime := 0
    targetFrameRate :=
      match options.frameRate with
      | some r => if r = 0 then 60 else r
      | none => 60
    renderStats :=
      { framesRendered := 0, averageFrameTime := 0, droppedFrames := 0, totalRenderTime := 0 }
    strokeCache := []
    dirtyRegions := []
    isRendering := false
    offscreenEnabled :=
      match options.enableOffscreenRendering with
      | some false => false
      | _ => true }

/-! ## Device capability classifier (PerformanceOptimizer.getDevicePerformanceLevel) -/

/-- `getDevicePerformanceLevel` (part_001 lines 435-459).
`hardwareConcurrency` is `navigator.hardwareConcurrency || 2` (a missing or
zero reading falls back to 2); `memoryTotalBytes` is the optional measured
total heap size in bytes, normalised to GB, defaulting to 4GB when missing;
`isMobile` is the user-agent heuristic. -/
def getDevicePerformanceLevel (hardwareConcurrency : Option ℕ)
    (memoryTotalBytes : Option ℚ) (isMobile : Bool) : PerfLevel :=
  let cores : ℕ :=
    match hardwareConcurrency with
    | some c => if c = 0 then 2 else c
    | none => 2
  let memoryGB : ℚ :=
    match memoryTotalBytes with
    | some total => total / (1024 * 1024 * 1024)
    | none => 4
  if isMobile then
    if 6 ≤ cores ∧ 4 ≤ memoryGB then PerfLevel.medium else PerfLevel.low
  else if 8 ≤ cores ∧ 8 ≤ memoryGB then PerfLevel.high
  else if 4 ≤ cores ∧ 4 ≤ memoryGB then PerfLevel.medium
  else PerfLevel.low

/-- The classifier as the specification words it, over cores, an optional
memory size already in GB (missing treated as 4GB), and the mobile flag. -/
def classifySpec (cores : ℕ) (memoryGB : Option ℚ) (isMobile : Bool) : PerfLevel :=
  let mem := memoryGB.getD 4
  if isMobile then
    if 6 ≤ cores ∧ 4 ≤ mem then PerfLevel.medium else PerfLevel.low
  else if 8 ≤ cores ∧ 8 ≤ mem then PerfLevel.high
  else if 4 ≤ cores ∧ 4 ≤ mem then PerfLevel.medium
  else PerfLevel.low

/-! ## Concrete instances used by counterexamples and witnesses -/

/-- A sealed stroke with id `a`. -/
def strokeA : DrawingStroke :=
  { id := "a", points := [], color := "#1E293B", width := 4, timestamp := 0 }

/-- A sealed stroke with id `b`, distinct from `strokeA`. -/
def strokeB : DrawingStroke :=
  { id := "b", points := [], color := "#1E293B", width := 4, timestamp := 0 }

/-- A canvas state holding exactly one sealed stroke. -/
def oneStrokeState : AdvancedCanvasState :=
  { initialState with strokes := [strokeA] }

/-- Draw `a`, undo it, draw `b`: the undone stroke now sits above the newer
one in the reconstruction order. -/
def c2ops : List AdvancedCanvasAction :=
  [AdvancedCanvasAction.DRAW strokeA, AdvancedCanvasAction.UNDO,
   AdvancedCanvasAction.DRAW strokeB]

/-- A five-operation history exercising draw, undo, clear and redo. -/
def c2wOps : List AdvancedCanvasAction :=
  [AdvancedCanvasAction.DRAW strokeA, AdvancedCanvasAction.DRAW strokeB,
   AdvancedCanvasAction.UNDO, AdvancedCanvasAction.CLEAR,
   AdvancedCanvasAction.REDO]

/-- The empty brush patch. -/
def emptyPatch : BrushSettingsPatch :=
  { size := none, color := none, opacity := none, type := none }

/-- A user-operation sequence exercising draw, undo and setBrush. -/
def c10ops : List AdvancedCanvasAction :=
  [AdvancedCanvasAction.DRAW strokeA, AdvancedCanvasAction.UNDO,
   AdvancedCanvasAction.SET_BRUSH emptyPatch]

/-- Renderer options with every field absent. -/
def defaultOptions : RenderingOptions :=
  { enableOffscreenRendering := none, enableSmoothing := none
    enableBatching := none, maxBatchSize := none, frameRate := none }

/-- A freshly constructed renderer. -/
def baseRenderer : RendererState := initialRendererState defaultOptions

/-- A cache key present before the canvas is cleared. -/
def c3key : StrokeCacheKey := { id := "s1", pointCount := 3, color := "#FF0000", width := 4 }

/-- The compiled path stored under `c3key`. -/
def c3path : Path2D := [PathSeg.moveTo 0 0]

/-- A renderer whose stroke cache holds one compiled path. -/
def c3state : RendererState := { baseRenderer with strokeCache := [(c3key, c3path)] }

/-- A stroke with a single point (fewer than 2). -/
def c4stroke : DrawingStroke :=
  { id := "c4", points := [{ x := 1, y := 1 }], color := "#000000", width := 4, timestamp := 0 }

/-- A renderer with one batched draw operation queued. -/
def c5state : RendererState := drawStroke baseRenderer c4stroke "drawing"

/-! ## Helper lemmas -/

/-- Shuffling the middle list of a double append to the back is a
permutation. -/
theorem perm_append_shuffle {α : Type} (A B C : List α) :
    ((A ++ B) ++ C).Perm ((A ++ C) ++ B) := by
  rw [List.append_assoc, List.append_assoc]
  exact List.Perm.append_left A List.perm_append_comm

/-- One reducer step extends the reconstruction list
`strokes ++ undoStack.flatten` by exactly the stroke the action seals, up to
permutation. -/
theorem reducer_strokes_flatten_perm (s : AdvancedCanvasState) (a : AdvancedCanvasAction) :
    ((advancedCanvasReducer s a).strokes ++ (advancedCanvasReducer s a).undoStack.flatten).Perm
      ((s.strokes ++ s.undoStack.flatten) ++ (drawPayload a).toList) := by
  cases a with
  | DRAW p =>
      simpa [advancedCanvasReducer, drawPayload] using
        perm_append_shuffle s.strokes [p] s.undoStack.flatten
  | UNDO =>
      rcases List.eq_nil_or_concat s.strokes with h | ⟨l, x, h⟩
      · simp [advancedCanvasReducer, h, drawPayload]
      · rw [List.concat_eq_append] at h
        have : ((l ++ s.undoStack.flatten) ++ [x]).Perm ((l ++ [x]) ++ s.undoStack.flatten) :=
          perm_append_shuffle l s.undoStack.flatten [x]
        simpa [advancedCanvasReducer, h, drawPayload, List.append_assoc] using this
  | REDO =>
      rcases List.eq_nil_or_concat s.undoStack with h | ⟨U, B, h⟩
      · simp [advancedCanvasReducer, h, drawPayload]
      · rw [List.concat_eq_append] at h
        have : ((s.strokes ++ B) ++ U.flatten).Perm ((s.strokes ++ U.flatten) ++ B) :=
          perm_append_shuffle s.strokes B U.flatten
        simpa [advancedCanvasReducer, h, drawPayload, List.append_assoc] using this
  | CLEAR =>
      simpa [advancedCanvasReducer, drawPayload] using
        (@List.perm_append_comm _ s.undoStack.flatten s.strokes)
  | SET_BRUSH p => simp [advancedCanvasReducer, drawPayload]
  | UPDATE_PERFORMANCE l => simp [advancedCanvasReducer, drawPayload]
  | UPDATE_STATS st => simp [advancedCanvasReducer, drawPayload]
  | START_DRAWING => simp [advancedCanvasReducer, drawPayload]
  | FINISH_DRAWING => simp [advancedCanvasReducer, drawPayload]

/-- Folding a sequence of actions extends the reconstruction list by the
strokes it seals, up to permutation. -/
theorem foldl_strokes_flatten_perm (ops : List AdvancedCanvasAction) :
    ∀ s : AdvancedCanvasState,
      (((ops.foldl advancedCanvasReducer s).strokes
          ++ (ops.foldl advancedCanvasReducer s).undoStack.flatten)).Perm
        ((s.strokes ++ s.undoStack.flatten) ++ sealedStrokes ops) := by
  induction ops with
  | nil => intro s; simp [sealedStrokes]
  | cons a t ih =>
      intro s
      have h3 : (drawPayload a).toList ++ sealedStrokes t = sealedStrokes (a :: t) := by
        cases h : drawPayload a <;> simp [sealedStrokes, List.filterMap_cons, h]
      simp only [List.foldl_cons]
      refine (ih (advancedCanvasReducer s a)).trans ?_
      refine ((reducer_strokes_flatten_perm s a).append_right (sealedStrokes t)).trans ?_
      rw [List.append_assoc, h3]

/-- Every reducer step leaves `redoStack` a sublist of what it was (it is
either preserved or reset to `[]`). -/
theorem reducer_redoStack_sublist (s : AdvancedCanvasState) (a : AdvancedCanvasAction) :
    ((advancedCanvasReducer s a).redoStack).Sublist s.redoStack := by
  cases a with
  | DRAW p => exact List.nil_sublist _
  | UNDO =>
      dsimp only [advancedCanvasReducer]
      cases s.strokes.getLast? with
      | none => exact List.Sublist.refl _
      | some x => exact List.Sublist.refl _
  | REDO =>
      dsimp only [advancedCanvasReducer]
      cases s.undoStack.getLast? with
      | none => exact List.Sublist.refl _
      | some b => exact List.Sublist.refl _
  | CLEAR => exact List.nil_sublist _
  | SET_BRUSH p => exact List.Sublist.refl _
  | UPDATE_PERFORMANCE l => exact List.Sublist.refl _
  | UPDATE_STATS st => exact List.Sublist.refl _
  | START_DRAWING => exact List.Sublist.refl _
  | FINISH_DRAWING => exact List.Sublist.refl _

/-- Folding any action sequence leaves `redoStack` a sublist of the initial
one. -/
theorem foldl_redoStack_sublist (ops : List AdvancedCanvasAction) :
    ∀ s : AdvancedCanvasState,
      ((ops.foldl advancedCanvasReducer s).redoStack).Sublist s.redoStack := by
  induction ops with
  | nil => intro s; exact List.Sublist.refl _
  | cons a t ih =>
      intro s
      simp only [List.foldl_cons]
      exact (ih (advancedCanvasReducer s a)).trans (reducer_redoStack_sublist s a)

/-! ## Claim theorems: stroke history (C1, C2, C8, C9, C10) -/

/-- C1 counterexample: on a canvas holding one stroke, `clear()` followed by
exactly one `undo()` does NOT restore the pre-clear strokes list — `UNDO`
is guarded on a non-empty `strokes` list, and after `CLEAR` it is empty, so
the `undo` is a no-op and `strokes` stays `[]`. -/
theorem C1_counterexample :
    (hookUndo (hookClear oneStrokeState)).strokes ≠ oneStrokeState.strokes := by decide

/-- C1 (amended): `clear()` followed by exactly one `redo()` restores the
full pre-clear `strokes` list in one step (and returns `undoStack` to its
pre-clear value); it is `redo`, not `undo`, that pops the bulk batch that
`CLEAR` pushed onto `undoStack`. -/
theorem C1_clear_then_redo_restores (s : AdvancedCanvasState) :
    (hookRedo (hookClear s)).strokes = s.strokes ∧
    (hookRedo (hookClear s)).undoStack = s.undoStack := by
  constructor <;> simp [hookRedo, hookClear, advancedCanvasReducer]

/-- C2 counterexample: after draw `a`, undo, draw `b`, the state is
`strokes = [b]`, `undoStack = [[a]]`, so `strokes ++ undoStack.flatten =
[b, a]`, which is not the creation-order sequence `[a, b]`. -/
theorem C2_counterexample :
    (applyActions c2ops).strokes ++ (applyActions c2ops).undoStack.flatten
      ≠ sealedStrokes c2ops := by decide

/-- C2 (amended): in every state reachable from the initial state by draw,
undo, redo and clear operations, `strokes ++ undoStack.flatten` is a
permutation of the strokes sealed during the session — the reconstruction
holds with multiplicity, but not necessarily in creation order. -/
theorem C2_history_reconstruction_perm (ops : List AdvancedCanvasAction)
    (_h : ∀ a ∈ ops, isHistoryAction a = true) :
    ((applyActions ops).strokes ++ (applyActions ops).undoStack.flatten).Perm
      (sealedStrokes ops) := by
  simpa [applyActions, initialState] using foldl_strokes_flatten_perm ops initialState

/-- Witness for C2 at a concrete five-operation history. -/
theorem C2_witness :
    ((applyActions c2wOps).strokes ++ (applyActions c2wOps).undoStack.flatten).Perm
      (sealedStrokes c2wOps) :=
  C2_history_reconstruction_perm c2wOps (by decide)

/-- C8: on any state with a non-empty strokes list, undo immediately
followed by redo restores the exact prior strokes sequence and returns
`undoStack` to its prior size. -/
theorem C8_undo_redo_roundtrip (s : AdvancedCanvasState) (h : s.strokes ≠ []) :
    (advancedCanvasReducer (advancedCanvasReducer s AdvancedCanvasAction.UNDO)
        AdvancedCanvasAction.REDO).strokes = s.strokes ∧
    (advancedCanvasReducer (advancedCanvasReducer s AdvancedCanvasAction.UNDO)
        AdvancedCanvasAction.REDO).undoStack.length = s.undoStack.length := by
  rcases List.eq_nil_or_concat s.strokes with h0 | ⟨l, x, h0⟩
  · exact absurd h0 h
  · rw [List.concat_eq_append] at h0
    constructor <;> simp [advancedCanvasReducer, h0]

/-- Witness for C8 at a one-stroke state. -/
theorem C8_witness :
    (advancedCanvasReducer (advancedCanvasReducer oneStrokeState AdvancedCanvasAction.UNDO)
        AdvancedCanvasAction.REDO).strokes = oneStrokeState.strokes ∧
    (advancedCanvasReducer (advancedCanvasReducer oneStrokeState AdvancedCanvasAction.UNDO)
        AdvancedCanvasAction.REDO).undoStack.length = oneStrokeState.undoStack.length :=
  C8_undo_redo_roundtrip oneStrokeState (by decide)

/-- C9 counterexample: `clear` on the empty initial canvas is NOT a no-op —
the reducer's `CLEAR` case pushes `state.strokes` (here `[]`) onto
`undoStack` unconditionally, so the state changes. -/
theorem C9_counterexample : hookClear initialState ≠ initialState := by decide

/-- C9 (amended): undo with an empty strokes list and redo with an empty
`undoStack` are no-ops that leave the entire state unchanged; clear on an
empty canvas leaves `strokes` empty but appends an empty batch to
`undoStack` and empties `redoStack`.  All three are total functions — no
exceptions exist in the model. -/
theorem C9_empty_operand_behaviour (s : AdvancedCanvasState) :
    (s.strokes = [] → advancedCanvasReducer s AdvancedCanvasAction.UNDO = s) ∧
    (s.undoStack = [] → advancedCanvasReducer s AdvancedCanvasAction.REDO = s) ∧
    (s.strokes = [] → advancedCanvasReducer s AdvancedCanvasAction.CLEAR
        = { s with undoStack := s.undoStack ++ [[]], redoStack := [] }) := by
  obtain ⟨st, un, re, d, c, b, o, p, rs⟩ := s
  refine ⟨fun h => ?_, fun h => ?_, fun h => ?_⟩ <;>
    · dsimp only at h
      subst h
      rfl

/-- Witness for C9 at the initial state. -/
theorem C9_witness :
    advancedCanvasReducer initialState AdvancedCanvasAction.UNDO = initialState ∧
    advancedCanvasReducer initialState AdvancedCanvasAction.REDO = initialState ∧
    advancedCanvasReducer initialState AdvancedCanvasAction.CLEAR
      = { initialState with undoStack := initialState.undoStack ++ [[]], redoStack := [] } :=
  ⟨(C9_empty_operand_behaviour initialState).1 rfl,
   (C9_empty_operand_behaviour initialState).2.1 rfl,
   (C9_empty_operand_behaviour initialState).2.2 rfl⟩

/-- C10: in every state reachable by user operations the `redoStack` is
empty; no reducer step ever adds an element to `redoStack` (the result is
always a sublist of the previous one), and `DRAW` and `CLEAR` reset it to
`[]`. -/
theorem C10_redoStack_always_empty (ops : List AdvancedCanvasAction)
    (_h : ∀ a ∈ ops, isUserAction a = true) :
    (applyActions ops).redoStack = [] ∧
    (∀ (s : AdvancedCanvasState) (a : AdvancedCanvasAction),
      ((advancedCanvasReducer s a).redoStack).Sublist s.redoStack) ∧
    (∀ (s : AdvancedCanvasState) (p : DrawingStroke),
      (advancedCanvasReducer s (AdvancedCanvasAction.DRAW p)).redoStack = []) ∧
    (∀ s : AdvancedCanvasState,
      (advancedCanvasReducer s AdvancedCanvasAction.CLEAR).redoStack = []) :=
  ⟨List.sublist_nil.mp (foldl_redoStack_sublist ops initialState),
   reducer_redoStack_sublist,
   fun _ _ => rfl,
   fun _ => rfl⟩

/-- Witness for C10 at a concrete user-operation sequence. -/
theorem C10_witness : (applyActions c10ops).redoStack = [] :=
  (C10_redoStack_always_empty c10ops (by decide)).1

/-! ## Renderer helper lemmas -/

/-- Updating a present layer makes it the one the next lookup returns. -/
theorem lookupLayer_setLayer (layers : List (String × CanvasLayer)) (name : String)
    (l layer : CanvasLayer) (h : lookupLayer layers name = some layer) :
    lookupLayer (setLayer layers name l) name = some l := by
  induction layers with
  | nil => simp [lookupLayer] at h
  | cons p rest ih =>
      obtain ⟨k, v⟩ := p
      by_cases hk : k = name
      · simp [lookupLayer, setLayer, hk]
      · simp only [lookupLayer, setLayer, if_neg hk] at h ⊢
        exact ih h

/-- Executing a queued operation never touches the queues, the statistics,
the frame-rate configuration or the frame clock. -/
theorem execRenderOp_preserved (s : RendererState) (op : RenderOp) :
    (execRenderOp s op).renderQueue = s.renderQueue ∧
    (execRenderOp s op).batchedOperations = s.batchedOperations ∧
    (execRenderOp s op).renderStats = s.renderStats ∧
    (execRenderOp s op).targetFrameRate = s.targetFrameRate ∧
    (execRenderOp s op).lastFrameTime = s.lastFrameTime := by
  cases op with
  | drawStrokeOp stroke layerName =>
      dsimp only [execRenderOp]
      cases lookupLayer s.layers layerName with
      | none => exact ⟨rfl, rfl, rfl, rfl, rfl⟩
      | some layer => exact ⟨rfl, rfl, rfl, rfl, rfl⟩
  | drawStrokesOp strokes layerName =>
      dsimp only [execRenderOp]
      cases lookupLayer s.layers layerName with
      | none => exact ⟨rfl, rfl, rfl, rfl, rfl⟩
      | some layer => exact ⟨rfl, rfl, rfl, rfl, rfl⟩
  | clearLayerOp layerName =>
      dsimp only [execRenderOp]
      cases lookupLayer s.layers layerName with
      | none => exact ⟨rfl, rfl, rfl, rfl, rfl⟩
      | some layer => exact ⟨rfl, rfl, rfl, rfl, rfl⟩
  | resizeOp w h => exact ⟨rfl, rfl, rfl, rfl, rfl⟩

/-- Executing a whole list of queued operations preserves the same fields. -/
theorem foldl_execRenderOp_preserved (ops : List RenderOp) :
    ∀ s : RendererState,
      (ops.foldl execRenderOp s).renderQueue = s.renderQueue ∧
      (ops.foldl execRenderOp s).batchedOperations = s.batchedOperations ∧
      (ops.foldl execRenderOp s).renderStats = s.renderStats ∧
      (ops.foldl execRenderOp s).targetFrameRate = s.targetFrameRate ∧
      (ops.foldl execRenderOp s).lastFrameTime = s.lastFrameTime := by
  induction ops with
  | nil => exact fun s => ⟨rfl, rfl, rfl, rfl, rfl⟩
  | cons op t ih =>
      intro s
      simp only [List.foldl_cons]
      obtain ⟨q1, b1, r1, f1, l1⟩ := execRenderOp_preserved s op
      obtain ⟨q2, b2, r2, f2, l2⟩ := ih (execRenderOp s op)
      exact ⟨q2.trans q1, b2.trans b1, r2.trans r1, f2.trans f1, l2.trans l1⟩

/-- On a tick with at least one queued operation, `processRenderQueue`
drains both queues, composites, and applies `updateRenderStats` to the
previous statistics. -/
theorem processRenderQueue_drains (s : RendererState) (d : ℚ)
    (hne : ¬(s.renderQueue.length = 0 ∧ s.batchedOperations.length = 0)) :
    (processRenderQueue s d).state.renderQueue = [] ∧
    (processRenderQueue s d).state.batchedOperations = [] ∧
    (processRenderQueue s d).composited = true ∧
    (processRenderQueue s d).state.renderStats
      = updateRenderStats s.renderStats s.targetFrameRate d := by
  unfold processRenderQueue
  rw [if_neg hne]
  dsimp only [composeLayers, processBatchedOperations]
  split
  · refine ⟨(foldl_execRenderOp_preserved _ _).1, ?_, rfl, ?_⟩
    · exact ((foldl_execRenderOp_preserved _ _).2.1).trans
        ((foldl_execRenderOp_preserved _ _).2.1)
    · rw [(foldl_execRenderOp_preserved _ _).2.2.1, (foldl_execRenderOp_preserved _ _).2.2.1,
        (foldl_execRenderOp_preserved _ _).2.2.2.1, (foldl_execRenderOp_preserved _ _).2.2.2.1]
  · next hb =>
      have hbnil : s.batchedOperations = [] :=
        List.length_eq_zero.mp (Nat.eq_zero_of_not_pos hb)
      refine ⟨(foldl_execRenderOp_preserved _ _).1, ?_, rfl, ?_⟩
      · exact ((foldl_execRenderOp_preserved _ _).2.1).trans hbnil
      · rw [(foldl_execRenderOp_preserved _ _).2.2.1, (foldl_execRenderOp_preserved _ _).2.2.2.1]

/-! ## Claim theorems: renderer (C3, C4, C5, C7) and classifier (C6) -/

/-- C3 counterexample: a cache entry present before the renderer's `clear()`
is gone afterwards — `clear()` calls `strokeCache.clear()`
(advancedCanvasRenderer.ts line 445). -/
theorem C3_counterexample :
    lookupCache c3state.strokeCache c3key = some c3path ∧
    lookupCache (rendererClear c3state).strokeCache c3key = none := by decide

/-- C3 (amended): the renderer's `clear()` empties the compiled-path cache
and the dirty-region buffer; no cache entry survives a canvas clear. -/
theorem C3_clear_empties_cache (s : RendererState) :
    (rendererClear s).strokeCache = [] ∧ (rendererClear s).dirtyRegions = [] :=
  ⟨rfl, rfl⟩

/-- C4 counterexample: painting a one-point stroke (which compiles to an
empty path) flips the target layer's dirty flag from `false` to `true` and
appends a `DirtyRegion` — `drawStroke` has no point-count guard. -/
theorem C4_counterexample :
    c4stroke.points.length < 2 ∧
    lookupLayer baseRenderer.layers "drawing" = some { isDirty := false, zIndex := 1 } ∧
    lookupLayer (execRenderOp baseRenderer (RenderOp.drawStrokeOp c4stroke "drawing")).layers
      "drawing" = some { isDirty := true, zIndex := 1 } ∧
    (execRenderOp baseRenderer (RenderOp.drawStrokeOp c4stroke "drawing")).dirtyRegions.length
      = baseRenderer.dirtyRegions.length + 1 := by decide

/-- C4 (amended): a stroke with fewer than 2 points compiles to an empty
path, but executing its `drawStroke` operation on an existing layer still
sets that layer's dirty flag and appends a `DirtyRegion` for the stroke's
bounds. -/
theorem C4_short_stroke_still_marks_dirty (stroke : DrawingStroke) (s : RendererState)
    (name : String) (layer : CanvasLayer)
    (hp : stroke.points.length < 2)
    (hl : lookupLayer s.layers name = some layer)
    (hr : s.dirtyRegions.length < 100) :
    createStrokePath stroke = [] ∧
    lookupLayer (execRenderOp s (RenderOp.drawStrokeOp stroke name)).layers name
      = some { layer with isDirty := true } ∧
    (execRenderOp s (RenderOp.drawStrokeOp stroke name)).dirtyRegions
      = s.dirtyRegions ++ [getStrokeBounds stroke] := by
  refine ⟨by simp [createStrokePath, hp], ?_, ?_⟩
  · dsimp only [execRenderOp]
    rw [hl]
    exact lookupLayer_setLayer s.layers name _ layer hl
  · dsimp only [execRenderOp]
    rw [hl]
    dsimp only
    unfold addDirtyRegion
    have hlen : ¬((s.dirtyRegions ++ [getStrokeBounds stroke]).length > 100) := by
      simp only [List.length_append, List.length_singleton]
      omega
    rw [if_neg hlen]

/-- Witness for C4 at a fresh renderer and a one-point stroke. -/
theorem C4_witness :
    createStrokePath c4stroke = [] ∧
    lookupLayer (execRenderOp baseRenderer (RenderOp.drawStrokeOp c4stroke "drawing")).layers
      "drawing" = some { isDirty := true, zIndex := 1 } ∧
    (execRenderOp baseRenderer (RenderOp.drawStrokeOp c4stroke "drawing")).dirtyRegions
      = baseRenderer.dirtyRegions ++ [getStrokeBounds c4stroke] :=
  C4_short_stroke_still_marks_dirty c4stroke baseRenderer "drawing"
    { isDirty := false, zIndex := 1 } (by decide) (by decide) (by decide)

/-- C5 counterexample: an eligible tick (interval elapsed) with both queues
empty performs no compositing and records nothing — `processRenderQueue`
returns early, contradicting the claim that every eligible tick composites
and increments `framesRendered`. -/
theorem C5_counterexample :
    (1000 : ℚ) - baseRenderer.lastFrameTime ≥ 1000 / (baseRenderer.targetFrameRate : ℚ) ∧
    baseRenderer.renderQueue = [] ∧ baseRenderer.batchedOperations = [] ∧
    (renderFrame baseRenderer 1000 5).composited = false ∧
    (renderFrame baseRenderer 1000 5).state.renderStats.framesRendered
      = baseRenderer.renderStats.framesRendered := by
  have hcond : (1000 : ℚ) - baseRenderer.lastFrameTime
      ≥ 1000 / (baseRenderer.targetFrameRate : ℚ) := by
    show (1000 : ℚ) - 0 ≥ 1000 / ((60 : ℕ) : ℚ)
    norm_num
  refine ⟨hcond, rfl, rfl, ?_, ?_⟩ <;>
    · simp only [renderFrame, if_pos hcond]
      simp [processRenderQueue, baseRenderer, initialRendererState, defaultOptions]

/-- C5 (amended): on every eligible tick (frame interval elapsed) with at
least one queued operation, the scheduler drains both queues, invokes
`composite`, and records the frame duration — `framesRendered` is
incremented, `totalRenderTime` accumulates, `averageFrameTime` becomes the
new mean, and `droppedFrames` is incremented exactly when the frame's
processing time exceeds 1.5 times the target frame interval.  A tick with
both queues empty does none of this (see the counterexample). -/
theorem C5_eligible_nonempty_tick (s : RendererState) (t d : ℚ)
    (helig : t - s.lastFrameTime ≥ 1000 / (s.targetFrameRate : ℚ))
    (hne : ¬(s.renderQueue.length = 0 ∧ s.batchedOperations.length = 0)) :
    (renderFrame s t d).state.renderQueue = [] ∧
    (renderFrame s t d).state.batchedOperations = [] ∧
    (renderFrame s t d).composited = true ∧
    (renderFrame s t d).state.renderStats.framesRendered
      = s.renderStats.framesRendered + 1 ∧
    (renderFrame s t d).state.renderStats.totalRenderTime
      = s.renderStats.totalRenderTime + d ∧
    (renderFrame s t d).state.renderStats.averageFrameTime
      = (s.renderStats.totalRenderTime + d) / ((s.renderStats.framesRendered : ℚ) + 1) ∧
    (renderFrame s t d).state.renderStats.droppedFrames
      = (if d > (1000 / (s.targetFrameRate : ℚ)) * 1.5 then s.renderStats.droppedFrames + 1
         else s.renderStats.droppedFrames) := by
  obtain ⟨hq, hb, hc, hstats⟩ := processRenderQueue_drains s d hne
  have hrf : renderFrame s t d =
      { state := { (processRenderQueue s d).state with lastFrameTime := t }
        executed := (processRenderQueue s d).executed
        composited := (processRenderQueue s d).composited } := by
    simp only [renderFrame, if_pos helig]
  rw [hrf]
  dsimp only
  rw [hq, hb, hc, hstats]
  unfold updateRenderStats
  refine ⟨rfl, rfl, rfl, rfl, rfl, ?_, rfl⟩
  dsimp only
  push_cast
  ring_nf

/-- Witness for C5 at a renderer with one batched operation, an elapsed
interval and a 100 ms frame duration. -/
theorem C5_witness :
    (renderFrame c5state 1000 100).state.renderQueue = [] ∧
    (renderFrame c5state 1000 100).state.batchedOperations = [] ∧
    (renderFrame c5state 1000 100).composited = true ∧
    (renderFrame c5state 1000 100).state.renderStats.framesRendered
      = c5state.renderStats.framesRendered + 1 ∧
    (renderFrame c5state 1000 100).state.renderStats.totalRenderTime
      = c5state.renderStats.totalRenderTime + 100 ∧
    (renderFrame c5state 1000 100).state.renderStats.averageFrameTime
      = (c5state.renderStats.totalRenderTime + 100) / ((c5state.renderStats.framesRendered : ℚ) + 1) ∧
    (renderFrame c5state 1000 100).state.renderStats.droppedFrames
      = (if (100 : ℚ) > (1000 / (c5state.targetFrameRate : ℚ)) * 1.5
         then c5state.renderStats.droppedFrames + 1
         else c5state.renderStats.droppedFrames) :=
  C5_eligible_nonempty_tick c5state 1000 100
    (by show (1000 : ℚ) - 0 ≥ 1000 / ((60 : ℕ) : ℚ); norm_num)
    (by decide)

/-- C6: the device classifier is a total function of cores, optional memory
and the mobile flag, computing exactly the tiering the specification
describes (with a missing memory measurement treated as 4GB), and it
returns `high` for 8 cores / 8GB / desktop, `low` for 2 cores / 2GB /
mobile, and `medium` for 6 cores / 4GB / mobile. -/
theorem C6_classifier (cores : ℕ) (memoryGB : Option ℚ) (isMobile : Bool) :
    getDevicePerformanceLevel (some cores)
        (memoryGB.map (fun g => g * (1024 * 1024 * 1024))) isMobile
      = classifySpec cores memoryGB isMobile ∧
    getDevicePerformanceLevel (some 8) (some (8 * (1024 * 1024 * 1024))) false
      = PerfLevel.high ∧
    getDevicePerformanceLevel (some 2) (some (2 * (1024 * 1024 * 1024))) true
      = PerfLevel.low ∧
    getDevicePerformanceLevel (some 6) (some (4 * (1024 * 1024 * 1024))) true
      = PerfLevel.medium := by
  have key : ∀ (c : ℕ) (g : Option ℚ) (m : Bool),
      getDevicePerformanceLevel (some c) (g.map (fun x => x * (1024 * 1024 * 1024))) m
        = classifySpec c g m := by
    intro c g m
    unfold getDevicePerformanceLevel classifySpec
    cases g with
    | none =>
        by_cases h0 : c = 0
        · subst h0; norm_num
        · simp [h0]
    | some x =>
        have hx : x * (1024 * 1024 * 1024 : ℚ) / (1024 * 1024 * 1024 : ℚ) = x := by
          rw [mul_div_assoc, div_self (by norm_num), mul_one]
        dsimp only [Option.map_some', Option.getD_some]
        rw [hx]
        by_cases h0 : c = 0
        · subst h0; norm_num
        · simp [h0]
  exact ⟨key cores memoryGB isMobile,
    (key 8 (some 8) false).trans (by decide),
    (key 2 (some 2) true).trans (by decide),
    (key 6 (some 4) true).trans (by decide)⟩

/-- C7: within one scheduler tick the executed operations are exactly the
batched queue in FIFO order followed by the immediate queue in FIFO order,
so no immediate operation runs before any batched operation of the same
tick. -/
theorem C7_batched_before_immediate (s : RendererState) (d : ℚ) :
    (processRenderQueue s d).executed = s.batchedOperations ++ s.renderQueue := by
  unfold processRenderQueue
  by_cases hempty : s.renderQueue.length = 0 ∧ s.batchedOperations.length = 0
  · rw [if_pos hempty]
    rw [List.length_eq_zero.mp hempty.1, List.length_eq_zero.mp hempty.2]
    rfl
  · rw [if_neg hempty]
    dsimp only [processBatchedOperations]
    split
    · exact congrArg (s.batchedOperations ++ ·) (foldl_execRenderOp_preserved _ _).1
    · next hb =>
        have hbnil : s.batchedOperations = [] :=
          List.length_eq_zero.mp (Nat.eq_zero_of_not_pos hb)
        rw [hbnil]

end NHWC
